import Mathlib

/-!
Shallow embedding of `src/sdk/src/platform/Discovery.ts` (the Discovery
coordinator of the ringcentral-js SDK) and proofs about its claims.

Modelling conventions:
* JS numbers that the code only adds/compares are modelled as `Int`
  (`Date.now()` epoch milliseconds, `expiresIn` seconds, handicap/delay ms).
* A cache slot holds a JS value: `undefined`, `null`, or a document;
  this is the `JsVal` type below.  Objects are always truthy in JS, so
  the only falsy cache results are `undefined` and `null`.
* The injected collaborators (`fetchGet` transport and the `Cache` store)
  are modelled as an outcome oracle (for the transport with JSON parsing
  folded in) and as fields of the explicit state (for the two cache slots).
* Every observable interaction (transport call, cache access, timer delay,
  event emission) is recorded in an effect trace.
* Each public operation is embedded as a function from state to
  (effect trace, new state, result); `Except JsError` models promise
  rejection.  Async functions run atomically between awaits; the
  sequential run functions below model one caller running to completion,
  and a separate small model covers the microtask interleaving of
  concurrent callers of the memo-cell ("single flight") wrappers.
* A memo cell (`_initialPromise`, `_initialFetchPromise`,
  `_externalFetchPromise`, `_externalRefreshPromise`) is `Option` of the
  settled outcome of the promise it holds: `none` when the field is null,
  `some r` when it still holds a promise that settled with `r` (a promise
  object is truthy whether pending or settled, so `if (!this._p)` is
  `Option.isSome`).
-/

namespace Discovery

/-- A JavaScript value as returned by `cache.getItem`: `undefined`,
`null`, or an actual document (objects are truthy). -/
inductive JsVal (α : Type) : Type
  | undef : JsVal α
  | nullv : JsVal α
  | val : α → JsVal α
  deriving DecidableEq, Repr

/-- JS truthiness of a cache result: objects are truthy, `undefined` and
`null` are falsy. -/
def JsVal.truthy {α : Type} : JsVal α → Bool
  | JsVal.undef => false
  | JsVal.nullv => false
  | JsVal.val _ => true

/-- JS `a || b` restricted to our value domain (used for `data || null`). -/
def jsOr {α : Type} (a b : JsVal α) : JsVal α :=
  if a.truthy then a else b

/-- The options object passed to `fetchGet`: the source passes exactly
`{skipAuthCheck: true}` or `{skipDiscoveryCheck: true}`. -/
inductive FetchOptions : Type
  | skipAuthCheck
  | skipDiscoveryCheck
  deriving DecidableEq, Repr

/-- Promise rejection reasons distinguishable in this module. -/
inductive JsError : Type
  /-- `new Error('Client Id is required for discovery')` in `init`. -/
  | clientIdRequired
  /-- `TypeError` from reading `.discoveryApi` of `null` in
  `_refreshExternalData`. -/
  | typeErrorNull
  /-- an opaque transport / JSON-parsing failure, tagged for
  distinguishability. -/
  | transport : Nat → JsError
  deriving DecidableEq, Repr

/-- `ExternalDisconveryAuthApiData` (field names and typo from source). -/
structure ExternalDisconveryAuthApiData : Type where
  authorizationUri : String
  oidcDiscoveryUri : String
  baseUri : String
  tokenUri : String
  deriving DecidableEq, Repr

/-- `InitialDisconveryAuthApiData`. -/
structure InitialDisconveryAuthApiData : Type where
  authorizationUri : String
  oidcDiscoveryUri : String
  defaultTokenUri : String
  deriving DecidableEq, Repr

/-- `DiscoveryCoreApiData`. -/
structure DiscoveryCoreApiData : Type where
  baseUri : String
  deriving DecidableEq, Repr

/-- `ExternalDiscoveryApiData`. -/
structure ExternalDiscoveryApiData : Type where
  externalUri : String
  initialUri : String
  deriving DecidableEq, Repr

/-- `InitialDiscoveryApiData`. -/
structure InitialDiscoveryApiData : Type where
  defaultExternalUri : String
  deriving DecidableEq, Repr

/-- `DisconveryGlipData`. -/
structure DisconveryGlipData : Type where
  discovery : String
  entry : String
  deriving DecidableEq, Repr

/-- `DiscoveryRcvData`. -/
structure DiscoveryRcvData : Type where
  baseWebUri : String
  baseApiUri : String
  pubnubOrigin : String
  deriving DecidableEq, Repr

/-- `DiscoveryRcmData`. -/
structure DiscoveryRcmData : Type where
  baseWebUri : String
  sdkDomain : String
  deriving DecidableEq, Repr

/-- `DiscoveryEdcData`. -/
structure DiscoveryEdcData : Type where
  baseUri : String
  deriving DecidableEq, Repr

/-- `InitialDiscoveryData`: the long-lived bootstrap document. -/
structure InitialDiscoveryData : Type where
  version : String
  retryCount : Int
  retryInterval : Int
  discoveryApi : InitialDiscoveryApiData
  authApi : InitialDisconveryAuthApiData
  coreApi : DiscoveryCoreApiData
  rcm : DiscoveryRcmData
  rcv : DiscoveryRcvData
  edc : Option DiscoveryEdcData
  glip : Option DisconveryGlipData
  deriving DecidableEq, Repr

/-- `ExternalDisconveryData`: the short-lived external document.
`expiresIn` and `expireTime` are `Option Int`: a JSON payload may omit
them (`undefined`), and the code tests `if (newData.expiresIn)`, where
`undefined` and `0` are both falsy. `tag` is optional as in the source. -/
structure ExternalDisconveryData : Type where
  version : String
  tag : Option String
  expiresIn : Option Int
  expireTime : Option Int
  retryCount : Int
  retryInterval : Int
  retryCycleDelay : Int
  discoveryApi : ExternalDiscoveryApiData
  authApi : ExternalDisconveryAuthApiData
  coreApi : DiscoveryCoreApiData
  rcm : DiscoveryRcmData
  rcv : DiscoveryRcvData
  edc : Option DiscoveryEdcData
  glip : Option DisconveryGlipData
  deriving DecidableEq, Repr

/-- `DEFAULT_RENEW_HANDICAP_MS = 60 * 1000`. -/
def DEFAULT_RENEW_HANDICAP_MS : Int := 60 * 1000

/-- Default of the `refreshDelayMs` constructor option. -/
def DEFAULT_REFRESH_DELAY_MS : Int := 100

/-- Constructor options that the coordinator keeps as plain data
(the `cache` and `fetchGet` collaborators are modelled separately as
state and oracle). -/
structure DiscoveryOptions : Type where
  cacheId : String
  initialEndpoint : String
  clientId : String
  refreshHandicapMs : Int := DEFAULT_RENEW_HANDICAP_MS
  refreshDelayMs : Int := DEFAULT_REFRESH_DELAY_MS
  deriving DecidableEq, Repr

/-- `` this._initialCacheId = `${cacheId}-initial` ``. -/
def initialCacheId (cfg : DiscoveryOptions) : String :=
  cfg.cacheId ++ "-initial"

/-- `` this._externalCacheId = `${cacheId}-external` ``. -/
def externalCacheId (cfg : DiscoveryOptions) : String :=
  cfg.cacheId ++ "-external"

/-- One observable interaction of the coordinator with its collaborators. -/
inductive Effect : Type
  /-- `this._fetchGet(url, query, options)`; `query` is the `clientId`
  query parameter when present, `none` for `null`. -/
  | fetchGet (url : String) (query : Option String) (opts : FetchOptions)
  /-- `this._cache.getItem(key)`. -/
  | cacheGet (key : String)
  /-- `this._cache.setItem(key, doc)` with an initial document. -/
  | cacheSetInitial (key : String) (d : InitialDiscoveryData)
  /-- `this._cache.setItem(key, doc)` with an external document. -/
  | cacheSetExternal (key : String) (d : ExternalDisconveryData)
  /-- `this._cache.removeItem(key)`. -/
  | cacheRemove (key : String)
  /-- `this.emit(events.initialized, doc)`. -/
  | emitInitialized (d : InitialDiscoveryData)
  /-- `this.emit(events.externalDataUpdated, doc)`. -/
  | emitExternalDataUpdated (d : ExternalDisconveryData)
  /-- `delay(ms)`. -/
  | delayEff (ms : Int)
  deriving DecidableEq, Repr

/-- Whether an effect is a transport invocation. -/
def Effect.isFetchGet : Effect → Bool
  | Effect.fetchGet _ _ _ => true
  | _ => false

/-- Whether an effect is an `external-data-updated` emission. -/
def Effect.isEmitExternal : Effect → Bool
  | Effect.emitExternalDataUpdated _ => true
  | _ => false

/-- Whether an effect is a cache write (either slot). -/
def Effect.isCacheWrite : Effect → Bool
  | Effect.cacheSetInitial _ _ => true
  | Effect.cacheSetExternal _ _ => true
  | Effect.cacheRemove _ => true
  | _ => false

/-- Number of transport invocations in a trace. -/
def countFetchGet (tr : List Effect) : Nat :=
  tr.countP (fun e => e.isFetchGet)

/-- Number of `external-data-updated` emissions in a trace. -/
def countEmitExternal (tr : List Effect) : Nat :=
  tr.countP (fun e => e.isEmitExternal)

/-- The transport-and-JSON oracle: the composite outcome of
`fetchGet` plus `response.json()` (plus, for the external endpoint, the
`discovery-tag` response header, `none` when absent). -/
structure Oracle : Type where
  initial : Except JsError InitialDiscoveryData
  external : String → Except JsError (ExternalDisconveryData × Option String)

instance {ε α : Type} [DecidableEq ε] [DecidableEq α] :
    DecidableEq (Except ε α) := fun x y =>
  match x, y with
  | Except.ok a, Except.ok b =>
      if h : a = b then isTrue (by rw [h])
      else isFalse (fun hc => h (by cases hc; rfl))
  | Except.error a, Except.error b =>
      if h : a = b then isTrue (by rw [h])
      else isFalse (fun hc => h (by cases hc; rfl))
  | Except.ok _, Except.error _ => isFalse (fun hc => Except.noConfusion hc)
  | Except.error _, Except.ok _ => isFalse (fun hc => Except.noConfusion hc)

/-- The coordinator's mutable state: the two cache slots (contents of the
injected store under the two derived keys) and the four promise-memo
cells, plus the `_initialized` flag.  A memo cell is `none` when the
field is `null`/`undefined` and `some r` while the field still holds a
promise whose settled outcome is `r`. -/
structure DiscoveryState : Type where
  initialCache : JsVal InitialDiscoveryData
  externalCache : JsVal ExternalDisconveryData
  initialPromise : Option (Except JsError Unit)
  initialFetchPromise : Option (Except JsError InitialDiscoveryData)
  externalFetchPromise : Option (Except JsError ExternalDisconveryData)
  externalRefreshPromise : Option (Except JsError Unit)
  initialized : Bool
  deriving DecidableEq, Repr

/-- State produced by the constructor's field initialisation (lines
125-146 before the `this.init()` call): the memo cells are empty,
`_initialized` is `false`, and the cache slots hold whatever the
injected store already contains. -/
def mkState (ic : JsVal InitialDiscoveryData)
    (ec : JsVal ExternalDisconveryData) : DiscoveryState :=
  { initialCache := ic
    externalCache := ec
    initialPromise := none
    initialFetchPromise := none
    externalFetchPromise := none
    externalRefreshPromise := none
    initialized := false }

/-- `initialData()`: one cache read, `data || null`, no writes. -/
def initialData (cfg : DiscoveryOptions) (s : DiscoveryState) :
    List Effect × DiscoveryState × JsVal InitialDiscoveryData :=
  ([Effect.cacheGet (initialCacheId cfg)], s,
    jsOr s.initialCache JsVal.nullv)

/-- `externalData()`: one cache read, `data || null`, no writes. -/
def externalData (cfg : DiscoveryOptions) (s : DiscoveryState) :
    List Effect × DiscoveryState × JsVal ExternalDisconveryData :=
  ([Effect.cacheGet (externalCacheId cfg)], s,
    jsOr s.externalCache JsVal.nullv)

/-- The document `_setExternalData` actually stores: a copy of `newData`
whose `expireTime` is `Date.now() + expiresIn * 1000` when `expiresIn`
is truthy (present and nonzero) and `undefined` otherwise — any
network-supplied `expireTime` is overwritten by the spread. -/
def setExternalDataDoc (now : Int) (newData : ExternalDisconveryData) :
    ExternalDisconveryData :=
  match newData.expiresIn with
  | some e =>
      if e ≠ 0 then { newData with expireTime := some (now + e * 1000) }
      else { newData with expireTime := none }
  | none => { newData with expireTime := none }

/-- `_setExternalData(newData)`: one cache write of the recomputed
document to the external slot. -/
def setExternalData (cfg : DiscoveryOptions) (now : Int)
    (newData : ExternalDisconveryData) (s : DiscoveryState) :
    List Effect × DiscoveryState :=
  let stored := setExternalDataDoc now newData
  ([Effect.cacheSetExternal (externalCacheId cfg) stored],
    { s with externalCache := JsVal.val stored })

/-- `_setInitialData(newData)`: one cache write, verbatim. -/
def setInitialData (cfg : DiscoveryOptions)
    (newData : InitialDiscoveryData) (s : DiscoveryState) :
    List Effect × DiscoveryState :=
  ([Effect.cacheSetInitial (initialCacheId cfg) newData],
    { s with initialCache := JsVal.val newData })

/-- `if (discoveryTag) externalData.tag = discoveryTag` — a header value
is a string, falsy exactly when empty. -/
def attachTag (d : ExternalDisconveryData) (tag : Option String) :
    ExternalDisconveryData :=
  match tag with
  | some t => if t ≠ "" then { d with tag := some t } else d
  | none => d

/-- `_fetchInitialData()` (lines 185-190): GET the initial endpoint with
the `clientId` query parameter and `skipAuthCheck`, parse the JSON body,
persist it verbatim to the initial slot, return it. -/
def _fetchInitialData (cfg : DiscoveryOptions) (oracle : Oracle)
    (s : DiscoveryState) :
    List Effect × DiscoveryState × Except JsError InitialDiscoveryData :=
  let tr0 := [Effect.fetchGet cfg.initialEndpoint (some cfg.clientId)
    FetchOptions.skipAuthCheck]
  match oracle.initial with
  | Except.error e => (tr0, s, Except.error e)
  | Except.ok d =>
      let st := setInitialData cfg d s
      (tr0 ++ st.1, st.2, Except.ok d)

/-- `fetchInitialData()` (lines 176-183).  There is no `try`/`catch`
here: on rejection of the awaited promise the `= null` assignment is
skipped, so the memo cell keeps the rejected promise. -/
def fetchInitialData (cfg : DiscoveryOptions) (oracle : Oracle)
    (s : DiscoveryState) :
    List Effect × DiscoveryState × Except JsError InitialDiscoveryData :=
  match s.initialFetchPromise with
  | some r =>
      match r with
      | Except.ok d =>
          ([], { s with initialFetchPromise := none }, Except.ok d)
      | Except.error e => ([], s, Except.error e)
  | none =>
      let run := _fetchInitialData cfg oracle s
      match run.2.2 with
      | Except.ok d =>
          (run.1, { run.2.1 with initialFetchPromise := none }, Except.ok d)
      | Except.error e =>
          let s1 := { run.2.1 with initialFetchPromise := some (Except.error e) }
          (run.1, s1, Except.error e)

/-- `_fetchExternalData(externalEndoint)` (lines 192-200): GET the given
endpoint with `null` query and `skipDiscoveryCheck`, parse the JSON body,
attach the `discovery-tag` header when truthy. -/
def _fetchExternalData (_cfg : DiscoveryOptions) (oracle : Oracle)
    (externalEndoint : String) (s : DiscoveryState) :
    List Effect × DiscoveryState × Except JsError ExternalDisconveryData :=
  let tr0 := [Effect.fetchGet externalEndoint none
    FetchOptions.skipDiscoveryCheck]
  match oracle.external externalEndoint with
  | Except.error e => (tr0, s, Except.error e)
  | Except.ok dt => (tr0, s, Except.ok (attachTag dt.1 dt.2))

/-- `fetchExternalData(externalEndoint)` (lines 202-216): await the
(possibly shared) underlying fetch; on success persist via
`_setExternalData`, clear the cell, emit `external-data-updated`, return
the document; on failure clear the cell and rethrow. -/
def fetchExternalData (cfg : DiscoveryOptions) (oracle : Oracle) (now : Int)
    (externalEndoint : String) (s : DiscoveryState) :
    List Effect × DiscoveryState × Except JsError ExternalDisconveryData :=
  match s.externalFetchPromise with
  | some r =>
      match r with
      | Except.ok d =>
          let st := setExternalData cfg now d s
          (st.1 ++ [Effect.emitExternalDataUpdated d],
            { st.2 with externalFetchPromise := none }, Except.ok d)
      | Except.error e =>
          ([], { s with externalFetchPromise := none }, Except.error e)
  | none =>
      let run := _fetchExternalData cfg oracle externalEndoint s
      match run.2.2 with
      | Except.ok d =>
          let st := setExternalData cfg now d run.2.1
          (run.1 ++ st.1 ++ [Effect.emitExternalDataUpdated d],
            { st.2 with externalFetchPromise := none }, Except.ok d)
      | Except.error e =>
          (run.1, { run.2.1 with externalFetchPromise := none },
            Except.error e)

/-- `_refreshExternalData()` (lines 218-223): settle delay, read the
cached external document, chain to `fetchExternalData` on its
`discoveryApi.externalUri`; reading `.discoveryApi` of `null` throws. -/
def _refreshExternalData (cfg : DiscoveryOptions) (oracle : Oracle)
    (now : Int) (s : DiscoveryState) :
    List Effect × DiscoveryState × Except JsError Unit :=
  let tr0 := [Effect.delayEff cfg.refreshDelayMs]
  let rd := externalData cfg s
  match rd.2.2 with
  | JsVal.val d =>
      let run := fetchExternalData cfg oracle now d.discoveryApi.externalUri
        rd.2.1
      (tr0 ++ rd.1 ++ run.1, run.2.1, run.2.2.map (fun _ => Unit.unit))
  | _ => (tr0 ++ rd.1, rd.2.1, Except.error JsError.typeErrorNull)

/-- `refreshExternalData()` (lines 225-236): memo-cell wrapper with
`try`/`catch`, clearing the cell on success and failure alike. -/
def refreshExternalData (cfg : DiscoveryOptions) (oracle : Oracle)
    (now : Int) (s : DiscoveryState) :
    List Effect × DiscoveryState × Except JsError Unit :=
  match s.externalRefreshPromise with
  | some r =>
      match r with
      | Except.ok _ =>
          ([], { s with externalRefreshPromise := none },
            Except.ok Unit.unit)
      | Except.error e =>
          ([], { s with externalRefreshPromise := none }, Except.error e)
  | none =>
      let run := _refreshExternalData cfg oracle now s
      match run.2.2 with
      | Except.ok _ =>
          (run.1, { run.2.1 with externalRefreshPromise := none },
            Except.ok Unit.unit)
      | Except.error e =>
          (run.1, { run.2.1 with externalRefreshPromise := none },
            Except.error e)

/-- `removeExternalData()` (lines 263-265). -/
def removeExternalData (cfg : DiscoveryOptions) (s : DiscoveryState) :
    List Effect × DiscoveryState :=
  ([Effect.cacheRemove (externalCacheId cfg)],
    { s with externalCache := JsVal.undef })

/-- `removeInitialData()` (lines 267-269). -/
def removeInitialData (cfg : DiscoveryOptions) (s : DiscoveryState) :
    List Effect × DiscoveryState :=
  ([Effect.cacheRemove (initialCacheId cfg)],
    { s with initialCache := JsVal.undef })

/-- `externalDataExpired()` (lines 274-280): no cached document gives
`true`; otherwise the code returns `data.expireTime - handicap > now`
(when `expireTime` is `undefined` the subtraction is `NaN` and the
comparison is `false`). -/
def externalDataExpired (cfg : DiscoveryOptions) (now : Int)
    (s : DiscoveryState) : List Effect × DiscoveryState × Bool :=
  let rd := externalData cfg s
  match rd.2.2 with
  | JsVal.val d =>
      match d.expireTime with
      | some t => (rd.1, rd.2.1, decide (t - cfg.refreshHandicapMs > now))
      | none => (rd.1, rd.2.1, false)
  | _ => (rd.1, rd.2.1, true)

/-- `_init()` (lines 164-174): cache short-circuit or network bootstrap;
either way set `_initialized` and emit `initialized` on success. -/
def _init (cfg : DiscoveryOptions) (oracle : Oracle) (s : DiscoveryState) :
    List Effect × DiscoveryState × Except JsError Unit :=
  let rd := initialData cfg s
  match rd.2.2 with
  | JsVal.val d =>
      (rd.1 ++ [Effect.emitInitialized d],
        { rd.2.1 with initialized := true }, Except.ok Unit.unit)
  | _ =>
      let run := fetchInitialData cfg oracle rd.2.1
      match run.2.2 with
      | Except.ok d =>
          (rd.1 ++ run.1 ++ [Effect.emitInitialized d],
            { run.2.1 with initialized := true }, Except.ok Unit.unit)
      | Except.error e => (rd.1 ++ run.1, run.2.1, Except.error e)

/-- `init()` (lines 148-162): configuration check, then the bootstrap
memo cell with `try`/`catch` clearing it on success and failure alike. -/
def init (cfg : DiscoveryOptions) (oracle : Oracle) (s : DiscoveryState) :
    List Effect × DiscoveryState × Except JsError Unit :=
  if cfg.clientId = "" then
    ([], s, Except.error JsError.clientIdRequired)
  else
    match s.initialPromise with
    | some r =>
        match r with
        | Except.ok _ =>
            ([], { s with initialPromise := none }, Except.ok Unit.unit)
        | Except.error e =>
            ([], { s with initialPromise := none }, Except.error e)
    | none =>
        let run := _init cfg oracle s
        match run.2.2 with
        | Except.ok _ =>
            (run.1, { run.2.1 with initialPromise := none },
              Except.ok Unit.unit)
        | Except.error e =>
            (run.1, { run.2.1 with initialPromise := none },
              Except.error e)

/-- One public operation of the coordinator, for stating properties that
range over everything the coordinator can do. -/
inductive Op : Type
  | opInit
  | opFetchInitialData
  | opFetchExternalData (endpoint : String)
  | opRefreshExternalData
  | opInitialData
  | opExternalData
  | opExternalDataExpired
  | opRemoveInitialData
  | opRemoveExternalData

/-- The state after running one public operation to completion. -/
def runOpState (cfg : DiscoveryOptions) (oracle : Oracle) (now : Int) :
    Op → DiscoveryState → DiscoveryState
  | Op.opInit, s => (init cfg oracle s).2.1
  | Op.opFetchInitialData, s => (fetchInitialData cfg oracle s).2.1
  | Op.opFetchExternalData ep, s => (fetchExternalData cfg oracle now ep s).2.1
  | Op.opRefreshExternalData, s => (refreshExternalData cfg oracle now s).2.1
  | Op.opInitialData, s => (initialData cfg s).2.1
  | Op.opExternalData, s => (externalData cfg s).2.1
  | Op.opExternalDataExpired, s => (externalDataExpired cfg now s).2.1
  | Op.opRemoveInitialData, s => (removeInitialData cfg s).2
  | Op.opRemoveExternalData, s => (removeExternalData cfg s).2

/-- State of one promise-memo cell during an in-flight window, with an
instrumentation counter.  `cell` holds the id of the promise the field
currently stores (`none` when the field is null); `started` counts how
many underlying attempts have been started for this cell; `nextId`
supplies fresh promise ids. -/
structure FlightState : Type where
  cell : Option Nat
  started : Nat
  nextId : Nat
  deriving DecidableEq, Repr

/-- The synchronous head segment shared by the memo-cell wrappers
(`fetchInitialData` lines 177-180, `fetchExternalData` lines 203-207,
`refreshExternalData` lines 226-230, `init` lines 152-156):
`if (!this._p) { this._p = f(...); } ... await this._p` runs atomically
up to the `await` (no suspension point between the truthiness test and
the assignment), so a caller either starts the underlying attempt (empty
cell) or joins the promise already stored.  Returns the id of the
promise this caller awaits. -/
def acquireOrJoin (f : FlightState) : FlightState × Nat :=
  match f.cell with
  | some p => (f, p)
  | none =>
      ({ cell := some f.nextId, started := f.started + 1,
         nextId := f.nextId + 1 }, f.nextId)

/-- `n` callers running the head segment one after another (the segment
is atomic, so concurrent arrivals interleave in some order); returns the
promise ids awaited, in arrival order. -/
def acquireOrJoinN : FlightState → Nat → FlightState × List Nat
  | f, 0 => (f, [])
  | f, Nat.succ n =>
      let fp := acquireOrJoin f
      let rest := acquireOrJoinN fp.1 n
      (rest.1, fp.2 :: rest.2)

/-- The four deduplicated operations, each owning one memo cell. -/
inductive FlightOp : Type
  | initOp
  | fetchInitialDataOp
  | fetchExternalDataOp
  | refreshExternalDataOp
  deriving DecidableEq, Repr

/-- The four memo cells of one coordinator, with instrumentation. -/
structure ConcState : Type where
  initFlight : FlightState
  initialFetchFlight : FlightState
  externalFetchFlight : FlightState
  externalRefreshFlight : FlightState
  deriving DecidableEq, Repr

/-- The memo cell an operation owns (`_initialPromise`,
`_initialFetchPromise`, `_externalFetchPromise`,
`_externalRefreshPromise`). -/
def flightOf : FlightOp → ConcState → FlightState
  | FlightOp.initOp, c => c.initFlight
  | FlightOp.fetchInitialDataOp, c => c.initialFetchFlight
  | FlightOp.fetchExternalDataOp, c => c.externalFetchFlight
  | FlightOp.refreshExternalDataOp, c => c.externalRefreshFlight

/-- Replace the memo cell an operation owns. -/
def setFlight : FlightOp → ConcState → FlightState → ConcState
  | FlightOp.initOp, c, f => { c with initFlight := f }
  | FlightOp.fetchInitialDataOp, c, f => { c with initialFetchFlight := f }
  | FlightOp.fetchExternalDataOp, c, f => { c with externalFetchFlight := f }
  | FlightOp.refreshExternalDataOp, c, f =>
      { c with externalRefreshFlight := f }

/-- One caller running the head segment of the given operation. -/
def syncHead (op : FlightOp) (c : ConcState) : ConcState × Nat :=
  let fp := acquireOrJoin (flightOf op c)
  (setFlight op c fp.1, fp.2)

/-- `n` callers running the head segment of the given operation. -/
def syncHeadN (op : FlightOp) : ConcState → Nat → ConcState × List Nat
  | c, 0 => (c, [])
  | c, Nat.succ n =>
      let cp := syncHead op c
      let rest := syncHeadN op cp.1 n
      (rest.1, cp.2 :: rest.2)

/-- The microtask interleaving of two concurrent callers A and B of
`fetchExternalData(externalEndoint)` sharing one underlying fetch:
A finds the cell empty and starts `_fetchExternalData` (whose head
segment issues the transport GET) and awaits it; B arrives while that
promise is pending, finds the cell truthy and joins.  When the promise
settles, A's and B's continuations run in arrival order: on success each
caller runs lines 208-211 (`_setExternalData`, clear the cell, emit
`external-data-updated`, return); A initiates its cache write and
suspends, B initiates its cache write and suspends, then A emits and
returns, then B emits and returns.  On failure each caller runs the
catch (clear, rethrow).  Returns the interleaved global trace, the final
state and both callers' results. -/
def twoCallerFetchExternalData (cfg : DiscoveryOptions) (oracle : Oracle)
    (now : Int) (externalEndoint : String) (s : DiscoveryState) :
    List Effect × DiscoveryState × Except JsError ExternalDisconveryData ×
      Except JsError ExternalDisconveryData :=
  let runA := _fetchExternalData cfg oracle externalEndoint s
  match runA.2.2 with
  | Except.error e =>
      (runA.1, { runA.2.1 with externalFetchPromise := none },
        Except.error e, Except.error e)
  | Except.ok d =>
      let stA := setExternalData cfg now d runA.2.1
      let stB := setExternalData cfg now d stA.2
      (runA.1 ++ stA.1 ++ stB.1 ++
          [Effect.emitExternalDataUpdated d,
            Effect.emitExternalDataUpdated d],
        { stB.2 with externalFetchPromise := none },
        Except.ok d, Except.ok d)

/-- A concrete initial document used to instantiate theorems. -/
def sampleInitialDoc : InitialDiscoveryData :=
  { version := "1.0"
    retryCount := 3
    retryInterval := 3
    discoveryApi := { defaultExternalUri := "https://disc.example.com/ext" }
    authApi :=
      { authorizationUri := "https://auth.example.com/authorize"
        oidcDiscoveryUri := "https://auth.example.com/oidc"
        defaultTokenUri := "https://auth.example.com/token" }
    coreApi := { baseUri := "https://core.example.com" }
    rcm := { baseWebUri := "https://app.example.com", sdkDomain := "example.com" }
    rcv :=
      { baseWebUri := "https://v.example.com"
        baseApiUri := "https://v-api.example.com"
        pubnubOrigin := "example.pubnubapi.com" }
    edc := none
    glip := none }

/-- A concrete external document used to instantiate theorems. -/
def sampleExternalDoc : ExternalDisconveryData :=
  { version := "1.0"
    tag := none
    expiresIn := some 3600
    expireTime := none
    retryCount := 3
    retryInterval := 3
    retryCycleDelay := 86400
    discoveryApi :=
      { externalUri := "https://disc2.example.com"
        initialUri := "https://disc.example.com" }
    authApi :=
      { authorizationUri := "https://auth.example.com/authorize"
        oidcDiscoveryUri := "https://auth.example.com/oidc"
        baseUri := "https://auth.example.com"
        tokenUri := "https://auth.example.com/token" }
    coreApi := { baseUri := "https://core.example.com" }
    rcm := { baseWebUri := "https://app.example.com", sdkDomain := "example.com" }
    rcv :=
      { baseWebUri := "https://v.example.com"
        baseApiUri := "https://v-api.example.com"
        pubnubOrigin := "example.pubnubapi.com" }
    edc := none
    glip := none }

/-- Concrete constructor options. -/
def sampleOptions : DiscoveryOptions :=
  { cacheId := "rc-disc"
    initialEndpoint := "https://disc.example.com/v1/discovery"
    clientId := "client-1" }

/-- A transport oracle whose calls succeed. -/
def sampleOracle : Oracle :=
  { initial := Except.ok sampleInitialDoc
    external := fun _ => Except.ok (sampleExternalDoc, some "v2") }

/-- A transport oracle whose calls fail. -/
def failingOracle : Oracle :=
  { initial := Except.error (JsError.transport 7)
    external := fun _ => Except.error (JsError.transport 8) }

/-- A memo-cell configuration with one external-fetch attempt in flight
as promise id 5. -/
def sampleConc : ConcState :=
  { initFlight := { cell := none, started := 0, nextId := 0 }
    initialFetchFlight := { cell := none, started := 0, nextId := 0 }
    externalFetchFlight := { cell := some 5, started := 1, nextId := 6 }
    externalRefreshFlight := { cell := none, started := 0, nextId := 0 } }

/-- C1: the claim states that with a cached external document,
`externalDataExpired()` returns `true` exactly when the current time is
at or past `expireTime - refreshHandicapMs`, and `true` when nothing is
cached.  The code (line 279) returns
`data.expireTime - refreshHandicapMs > Date.now()`, the reverse
polarity: with `expireTime = 1000000000` and the default 60000 ms
handicap, at `now = 0` (far before the lead-time threshold, so the claim
requires `false`) it returns `true`, and at `now = 1000000000` (at the
literal expiry, past the threshold, so the claim requires `true`) it
returns `false`.  The no-document case does return `true` as claimed. -/
theorem externalDataExpired_polarity_bug :
    (externalDataExpired sampleOptions 0 (mkState JsVal.nullv
      (JsVal.val { sampleExternalDoc with
        expireTime := some 1000000000 }))).2.2 = true
    ∧ (externalDataExpired sampleOptions 1000000000 (mkState JsVal.nullv
      (JsVal.val { sampleExternalDoc with
        expireTime := some 1000000000 }))).2.2 = false
    ∧ (externalDataExpired sampleOptions 0
        (mkState JsVal.nullv JsVal.nullv)).2.2 = true := by
  refine ⟨?_, ?_, ?_⟩ <;> rfl

/-- C2: the claim states that every deduplicated operation clears its
memo cell when the in-flight operation settles, rejected or resolved, so
that a `fetchInitialData` call made after a failure starts a fresh
transport attempt.  `fetchInitialData` (lines 176-183) has no
`try`/`catch`: after a first call whose transport rejects, the cell
still holds the rejected promise, and a second call performs no
transport invocation and replays the same failure (and leaves the cell
stuck again). -/
theorem fetchInitialData_stale_failure_replay :
    countFetchGet (fetchInitialData sampleOptions failingOracle
      (mkState JsVal.undef JsVal.undef)).1 = 1
    ∧ (fetchInitialData sampleOptions failingOracle
        (mkState JsVal.undef JsVal.undef)).2.2 =
        Except.error (JsError.transport 7)
    ∧ (fetchInitialData sampleOptions failingOracle
        (mkState JsVal.undef JsVal.undef)).2.1.initialFetchPromise =
        some (Except.error (JsError.transport 7))
    ∧ (fetchInitialData sampleOptions failingOracle
        (fetchInitialData sampleOptions failingOracle
          (mkState JsVal.undef JsVal.undef)).2.1).1 = []
    ∧ (fetchInitialData sampleOptions failingOracle
        (fetchInitialData sampleOptions failingOracle
          (mkState JsVal.undef JsVal.undef)).2.1).2.2 =
        Except.error (JsError.transport 7)
    ∧ (fetchInitialData sampleOptions failingOracle
        (fetchInitialData sampleOptions failingOracle
          (mkState JsVal.undef JsVal.undef)).2.1).2.1.initialFetchPromise =
        some (Except.error (JsError.transport 7)) := by
  refine ⟨?_, ?_, ?_, ?_, ?_, ?_⟩ <;> rfl

/-- C5: persisting an external document at time `now` stores a document
whose `expireTime` is `now + expiresIn * 1000` when `expiresIn` is
present and nonzero, and `undefined` when `expiresIn` is absent or zero
(overwriting any network-supplied `expireTime`); every other field is
stored as received, and the write goes to the external cache slot. -/
theorem setExternalData_expiry (cfg : DiscoveryOptions) (now : Int)
    (newData : ExternalDisconveryData) (s : DiscoveryState) :
    (setExternalData cfg now newData s).2.externalCache =
      JsVal.val (setExternalDataDoc now newData)
    ∧ (setExternalData cfg now newData s).1 =
      [Effect.cacheSetExternal (externalCacheId cfg)
        (setExternalDataDoc now newData)]
    ∧ (∀ e, newData.expiresIn = some e → e ≠ 0 →
        (setExternalDataDoc now newData).expireTime = some (now + e * 1000))
    ∧ (newData.expiresIn = some 0 →
        (setExternalDataDoc now newData).expireTime = none)
    ∧ (newData.expiresIn = none →
        (setExternalDataDoc now newData).expireTime = none)
    ∧ (setExternalDataDoc now newData).version = newData.version
    ∧ (setExternalDataDoc now newData).tag = newData.tag
    ∧ (setExternalDataDoc now newData).expiresIn = newData.expiresIn
    ∧ (setExternalDataDoc now newData).retryCount = newData.retryCount
    ∧ (setExternalDataDoc now newData).retryInterval = newData.retryInterval
    ∧ (setExternalDataDoc now newData).retryCycleDelay =
      newData.retryCycleDelay
    ∧ (setExternalDataDoc now newData).discoveryApi = newData.discoveryApi
    ∧ (setExternalDataDoc now newData).authApi = newData.authApi
    ∧ (setExternalDataDoc now newData).coreApi = newData.coreApi
    ∧ (setExternalDataDoc now newData).rcm = newData.rcm
    ∧ (setExternalDataDoc now newData).rcv = newData.rcv
    ∧ (setExternalDataDoc now newData).edc = newData.edc
    ∧ (setExternalDataDoc now newData).glip = newData.glip := by
  unfold setExternalData setExternalDataDoc
  rcases h : newData.expiresIn with _ | e
  · simp [h]
  · by_cases he : e = 0 <;> simp [h, he]

/-- Witness for C5: the sample document carries `expiresIn = 3600`, and
persisting it at time 1000 stores `expireTime = 1000 + 3600 * 1000`. -/
theorem setExternalData_expiry_witness :
    sampleExternalDoc.expiresIn = some 3600
    ∧ (setExternalDataDoc 1000 sampleExternalDoc).expireTime =
      some (1000 + 3600 * 1000) :=
  ⟨rfl, (setExternalData_expiry sampleOptions 1000 sampleExternalDoc
    (mkState JsVal.undef JsVal.undef)).2.2.1 3600 rfl (by decide)⟩

/-- C6: with an empty (falsy) client identifier, `init()` fails with the
configuration error and does nothing else: the trace is empty (no
transport invocation, no cache access) and the state — in particular the
bootstrap memo cell — is unchanged. -/
theorem init_requires_clientId (cfg : DiscoveryOptions) (oracle : Oracle)
    (s : DiscoveryState) (h : cfg.clientId = "") :
    init cfg oracle s = ([], s, Except.error JsError.clientIdRequired) := by
  simp [init, h]

/-- Witness for C6 at a concrete coordinator with an empty client id. -/
theorem init_requires_clientId_witness :
    ({ sampleOptions with clientId := "" } : DiscoveryOptions).clientId = ""
    ∧ init { sampleOptions with clientId := "" } sampleOracle
        (mkState JsVal.undef JsVal.undef) =
      ([], mkState JsVal.undef JsVal.undef,
        Except.error JsError.clientIdRequired) :=
  ⟨rfl, init_requires_clientId { sampleOptions with clientId := "" }
    sampleOracle (mkState JsVal.undef JsVal.undef) rfl⟩

/-- C10: `initialData()` and `externalData()` return the stored document
when the cache result is truthy and `null` for every falsy cache result
(`undefined` or `null`), never `undefined`; each performs exactly one
cache read and neither writes nor calls the transport (the whole trace
is that single read). -/
theorem accessors_normalize_null (cfg : DiscoveryOptions)
    (s : DiscoveryState) :
    ((initialData cfg s).2.2 ≠ JsVal.undef
      ∧ ((initialData cfg s).2.2 = JsVal.nullv ∨
          (initialData cfg s).2.2 = s.initialCache)
      ∧ (s.initialCache.truthy = false →
          (initialData cfg s).2.2 = JsVal.nullv)
      ∧ (s.initialCache.truthy = true →
          (initialData cfg s).2.2 = s.initialCache)
      ∧ (initialData cfg s).2.1 = s
      ∧ (initialData cfg s).1 = [Effect.cacheGet (initialCacheId cfg)])
    ∧ ((externalData cfg s).2.2 ≠ JsVal.undef
      ∧ ((externalData cfg s).2.2 = JsVal.nullv ∨
          (externalData cfg s).2.2 = s.externalCache)
      ∧ (s.externalCache.truthy = false →
          (externalData cfg s).2.2 = JsVal.nullv)
      ∧ (s.externalCache.truthy = true →
          (externalData cfg s).2.2 = s.externalCache)
      ∧ (externalData cfg s).2.1 = s
      ∧ (externalData cfg s).1 = [Effect.cacheGet (externalCacheId cfg)]) := by
  constructor
  · cases h : s.initialCache <;>
      simp [initialData, jsOr, JsVal.truthy, h]
  · cases h : s.externalCache <;>
      simp [externalData, jsOr, JsVal.truthy, h]

/-- Witness for C10: with an empty (`undefined`) cache slot the
accessor returns `null`. -/
theorem accessors_normalize_null_witness :
    (mkState JsVal.undef JsVal.undef).initialCache.truthy = false
    ∧ (initialData sampleOptions (mkState JsVal.undef JsVal.undef)).2.2 =
      JsVal.nullv :=
  ⟨rfl, (accessors_normalize_null sampleOptions
    (mkState JsVal.undef JsVal.undef)).1.2.2.1 rfl⟩

/-- C7: with an initial document already in the initial cache slot (and
a configured client id, bootstrap cell empty), `init()` resolves with a
trace of exactly one cache read followed by the `initialized` event
carrying the cached document — no transport invocation — and the
`initialized` flag becomes true. -/
theorem init_cached_short_circuit (cfg : DiscoveryOptions) (oracle : Oracle)
    (s : DiscoveryState) (d : InitialDiscoveryData)
    (hid : cfg.clientId ≠ "")
    (hcell : s.initialPromise = none)
    (hcache : s.initialCache = JsVal.val d) :
    init cfg oracle s =
      ([Effect.cacheGet (initialCacheId cfg), Effect.emitInitialized d],
        { s with initialized := true, initialPromise := none },
        Except.ok Unit.unit)
    ∧ countFetchGet (init cfg oracle s).1 = 0 := by
  have h1 : init cfg oracle s =
      ([Effect.cacheGet (initialCacheId cfg), Effect.emitInitialized d],
        { s with initialized := true, initialPromise := none },
        Except.ok Unit.unit) := by
    simp [init, hid, hcell, _init, initialData, hcache, jsOr, JsVal.truthy]
  exact ⟨h1, by rw [h1]; rfl⟩

/-- Witness for C7: a coordinator constructed over a cache that already
holds the sample initial document bootstraps with zero transport calls,
even with a transport that would fail. -/
theorem init_cached_short_circuit_witness :
    sampleOptions.clientId ≠ ""
    ∧ countFetchGet (init sampleOptions failingOracle
        (mkState (JsVal.val sampleInitialDoc) JsVal.undef)).1 = 0 :=
  ⟨by decide, (init_cached_short_circuit sampleOptions failingOracle
    (mkState (JsVal.val sampleInitialDoc) JsVal.undef) sampleInitialDoc
    (by decide) rfl rfl).2⟩

/-- C8: a fresh `refreshExternalData()` attempt (refresh cell empty, no
external fetch in flight) first waits the settling delay, then reads the
cached external document; with a cached document it issues exactly one
transport GET, to that document's `discoveryApi.externalUri`, as the
next effect; with no cached document it fails (the `null` field access)
after the delay and the cache read, with no transport invocation. -/
theorem refreshExternalData_order (cfg : DiscoveryOptions) (oracle : Oracle)
    (now : Int) (s : DiscoveryState)
    (hrefresh : s.externalRefreshPromise = none)
    (hfetch : s.externalFetchPromise = none) :
    (∀ d, s.externalCache = JsVal.val d →
      ∃ rest, (refreshExternalData cfg oracle now s).1 =
          Effect.delayEff cfg.refreshDelayMs
            :: Effect.cacheGet (externalCacheId cfg)
            :: Effect.fetchGet d.discoveryApi.externalUri none
                FetchOptions.skipDiscoveryCheck :: rest
        ∧ countFetchGet rest = 0)
    ∧ ((s.externalCache = JsVal.undef ∨ s.externalCache = JsVal.nullv) →
      refreshExternalData cfg oracle now s =
        ([Effect.delayEff cfg.refreshDelayMs,
          Effect.cacheGet (externalCacheId cfg)],
          { s with externalRefreshPromise := none },
          Except.error JsError.typeErrorNull)) := by
  constructor
  · intro d hd
    rcases ho : oracle.external d.discoveryApi.externalUri with e | dt
    · refine ⟨[], ?_, rfl⟩
      simp [refreshExternalData, hrefresh, _refreshExternalData,
        externalData, hd, jsOr, JsVal.truthy, fetchExternalData, hfetch,
        _fetchExternalData, ho, Except.map]
    · refine ⟨[Effect.cacheSetExternal (externalCacheId cfg)
          (setExternalDataDoc now (attachTag dt.1 dt.2)),
        Effect.emitExternalDataUpdated (attachTag dt.1 dt.2)], ?_, rfl⟩
      simp [refreshExternalData, hrefresh, _refreshExternalData,
        externalData, hd, jsOr, JsVal.truthy, fetchExternalData, hfetch,
        _fetchExternalData, ho, setExternalData, Except.map]
  · intro h
    rcases h with h | h <;>
      simp [refreshExternalData, hrefresh, _refreshExternalData,
        externalData, h, jsOr, JsVal.truthy]

/-- Witness for C8: with nothing in the external cache slot, a fresh
refresh fails after the delay and the cache read with zero transport
calls. -/
theorem refreshExternalData_order_witness :
    (mkState JsVal.undef JsVal.undef).externalRefreshPromise = none
    ∧ (mkState JsVal.undef JsVal.undef).externalFetchPromise = none
    ∧ refreshExternalData sampleOptions sampleOracle 0
        (mkState JsVal.undef JsVal.undef) =
      ([Effect.delayEff sampleOptions.refreshDelayMs,
        Effect.cacheGet (externalCacheId sampleOptions)],
        { mkState JsVal.undef JsVal.undef with
          externalRefreshPromise := none },
        Except.error JsError.typeErrorNull) :=
  ⟨rfl, rfl, (refreshExternalData_order sampleOptions sampleOracle 0
    (mkState JsVal.undef JsVal.undef) rfl rfl).2 (Or.inl rfl)⟩

/-- C4 counterexample: two concurrent callers of `fetchExternalData`
share one successful underlying fetch — the trace shows a single
transport GET — yet `external-data-updated` is emitted twice, because
every resumed caller runs lines 208-211 (persist, clear, emit, return).
This refutes the claim that the event is emitted exactly once per
successful fetch regardless of how many concurrent callers shared it. -/
theorem externalDataUpdated_two_callers_two_emits :
    countFetchGet (twoCallerFetchExternalData sampleOptions sampleOracle
      5000 "https://disc2.example.com"
      (mkState JsVal.undef JsVal.undef)).1 = 1
    ∧ countEmitExternal (twoCallerFetchExternalData sampleOptions
      sampleOracle 5000 "https://disc2.example.com"
      (mkState JsVal.undef JsVal.undef)).1 = 2 :=
  ⟨rfl, rfl⟩

/-- C4 amended: each caller of `fetchExternalData` whose (possibly
shared) underlying fetch succeeds persists the document via the
expiry-computing writer, then emits `external-data-updated` carrying the
fetched document, then returns it — so the event fires once per sharing
caller (hence exactly once when a successful fetch has a single caller).
First conjunct: the caller that starts the fetch (cell empty); second
conjunct: a caller joining a fetch that settled with a document. -/
theorem fetchExternalData_persist_then_emit (cfg : DiscoveryOptions)
    (oracle : Oracle) (now : Int) (externalEndoint : String)
    (s : DiscoveryState) (d : ExternalDisconveryData) (tag : Option String)
    (hcell : s.externalFetchPromise = none)
    (hor : oracle.external externalEndoint = Except.ok (d, tag)) :
    fetchExternalData cfg oracle now externalEndoint s =
      ([Effect.fetchGet externalEndoint none FetchOptions.skipDiscoveryCheck,
        Effect.cacheSetExternal (externalCacheId cfg)
          (setExternalDataDoc now (attachTag d tag)),
        Effect.emitExternalDataUpdated (attachTag d tag)],
        { s with
            externalCache :=
              JsVal.val (setExternalDataDoc now (attachTag d tag)),
            externalFetchPromise := none },
        Except.ok (attachTag d tag))
    ∧ (∀ (d0 : ExternalDisconveryData) (s0 : DiscoveryState),
        s0.externalFetchPromise = some (Except.ok d0) →
        fetchExternalData cfg oracle now externalEndoint s0 =
          ([Effect.cacheSetExternal (externalCacheId cfg)
              (setExternalDataDoc now d0),
            Effect.emitExternalDataUpdated d0],
            { s0 with
                externalCache := JsVal.val (setExternalDataDoc now d0),
                externalFetchPromise := none },
            Except.ok d0)) := by
  constructor
  · simp [fetchExternalData, hcell, _fetchExternalData, hor,
      setExternalData]
  · intro d0 s0 h0
    simp [fetchExternalData, h0, setExternalData]

/-- Witness for C4's amended claim: a single caller with an empty cell
persists, then emits, then returns the tagged sample document. -/
theorem fetchExternalData_persist_then_emit_witness :
    (mkState JsVal.undef JsVal.undef).externalFetchPromise = none
    ∧ sampleOracle.external "https://disc2.example.com" =
      Except.ok (sampleExternalDoc, some "v2")
    ∧ fetchExternalData sampleOptions sampleOracle 5000
        "https://disc2.example.com" (mkState JsVal.undef JsVal.undef) =
      ([Effect.fetchGet "https://disc2.example.com" none
          FetchOptions.skipDiscoveryCheck,
        Effect.cacheSetExternal (externalCacheId sampleOptions)
          (setExternalDataDoc 5000
            (attachTag sampleExternalDoc (some "v2"))),
        Effect.emitExternalDataUpdated
          (attachTag sampleExternalDoc (some "v2"))],
        { mkState JsVal.undef JsVal.undef with
            externalCache := JsVal.val (setExternalDataDoc 5000
              (attachTag sampleExternalDoc (some "v2"))),
            externalFetchPromise := none },
        Except.ok (attachTag sampleExternalDoc (some "v2"))) :=
  ⟨rfl, rfl, (fetchExternalData_persist_then_emit sampleOptions
    sampleOracle 5000 "https://disc2.example.com"
    (mkState JsVal.undef JsVal.undef) sampleExternalDoc (some "v2")
    rfl rfl).1⟩

/-- Joining an occupied memo cell leaves it unchanged and hands every
caller the in-flight promise. -/
theorem acquireOrJoinN_occupied (f : FlightState) (p : Nat)
    (hc : f.cell = some p) (n : Nat) :
    acquireOrJoinN f n = (f, List.replicate n p) := by
  induction n with
  | zero => simp [acquireOrJoinN]
  | succ n ih =>
      simp [acquireOrJoinN, acquireOrJoin, hc, ih, List.replicate_succ]

/-- Writing back the cell an operation already owns is the identity. -/
theorem setFlight_flightOf (op : FlightOp) (c : ConcState) :
    setFlight op c (flightOf op c) = c := by
  cases op <;> rfl

/-- The head segment of any of the deduplicated wrappers, run by `n`
callers against an occupied cell, changes nothing and hands every caller
the in-flight promise. -/
theorem syncHeadN_occupied (op : FlightOp) (c : ConcState) (p : Nat)
    (hc : (flightOf op c).cell = some p) (n : Nat) :
    syncHeadN op c n = (c, List.replicate n p) := by
  induction n with
  | zero => simp [syncHeadN]
  | succ n ih =>
      have h1 : syncHead op c = (c, p) := by
        simp [syncHead, acquireOrJoin, hc, setFlight_flightOf]
      simp [syncHeadN, h1, ih, List.replicate_succ]

/-- C3: for any of the deduplicated operations with one underlying
attempt in flight (cell holding promise `p`, attempt count 1), N ≥ 2
concurrent callers run the head segment without starting a second
underlying attempt: the memo state is unchanged, the attempt count stays
1, every caller awaits the same promise `p`, and so with any settlement
assignment `O` every caller receives the identical outcome `O p` of that
single attempt (same resolved value or same rejection).  Moreover each
underlying fetch attempt performs exactly one transport invocation
(the traces of `_fetchInitialData` and `_fetchExternalData` contain
exactly one `fetchGet`), so the transport is invoked exactly once for
that cell. -/
theorem dedup_single_flight {α : Type} (op : FlightOp) (c : ConcState)
    (p n : Nat) (O : Nat → Except JsError α)
    (hc : (flightOf op c).cell = some p)
    (hs : (flightOf op c).started = 1)
    (hn : 2 ≤ n) :
    (syncHeadN op c n).1 = c
    ∧ (flightOf op (syncHeadN op c n).1).started = 1
    ∧ (syncHeadN op c n).2 = List.replicate n p
    ∧ (∀ q ∈ (syncHeadN op c n).2, O q = O p)
    ∧ (∀ (cfg : DiscoveryOptions) (oracle : Oracle) (s : DiscoveryState),
        countFetchGet (_fetchInitialData cfg oracle s).1 = 1)
    ∧ (∀ (cfg : DiscoveryOptions) (oracle : Oracle) (ep : String)
        (s : DiscoveryState),
        countFetchGet (_fetchExternalData cfg oracle ep s).1 = 1) := by
  have h := syncHeadN_occupied op c p hc n
  refine ⟨by rw [h], by rw [h]; exact hs, by rw [h], ?_, ?_, ?_⟩
  · rw [h]
    intro q hq
    rw [List.eq_of_mem_replicate hq]
  · intro cfg oracle s
    unfold _fetchInitialData
    rcases oracle.initial with e | d <;>
      simp [countFetchGet, Effect.isFetchGet, setInitialData]
  · intro cfg oracle ep s
    unfold _fetchExternalData
    rcases oracle.external ep with e | dt <;>
      simp [countFetchGet, Effect.isFetchGet]

/-- Witness for C3: two callers joining the in-flight external fetch of
`sampleConc` (promise id 5, one attempt started) leave the state
unchanged and both await promise 5. -/
theorem dedup_single_flight_witness :
    (flightOf FlightOp.fetchExternalDataOp sampleConc).cell = some 5
    ∧ (flightOf FlightOp.fetchExternalDataOp sampleConc).started = 1
    ∧ 2 ≤ 2
    ∧ (syncHeadN FlightOp.fetchExternalDataOp sampleConc 2).1 = sampleConc
    ∧ (syncHeadN FlightOp.fetchExternalDataOp sampleConc 2).2 =
      List.replicate 2 5 :=
  ⟨rfl, rfl, by decide,
    (dedup_single_flight FlightOp.fetchExternalDataOp sampleConc 5 2
      (fun q => (Except.ok q : Except JsError Nat)) rfl rfl
      (by decide)).1,
    (dedup_single_flight FlightOp.fetchExternalDataOp sampleConc 5 2
      (fun q => (Except.ok q : Except JsError Nat)) rfl rfl
      (by decide)).2.2.1⟩

/-- `fetchInitialData` never touches the `_initialized` flag. -/
theorem fetchInitialData_preserves_initialized (cfg : DiscoveryOptions)
    (oracle : Oracle) (s : DiscoveryState) :
    (fetchInitialData cfg oracle s).2.1.initialized = s.initialized := by
  unfold fetchInitialData _fetchInitialData setInitialData
  rcases h : s.initialFetchPromise with _ | r
  · rcases ho : oracle.initial with e | d <;> simp [h, ho]
  · rcases r with e | d <;> simp [h]

/-- `fetchExternalData` never touches the `_initialized` flag. -/
theorem fetchExternalData_preserves_initialized (cfg : DiscoveryOptions)
    (oracle : Oracle) (now : Int) (ep : String) (s : DiscoveryState) :
    (fetchExternalData cfg oracle now ep s).2.1.initialized =
      s.initialized := by
  unfold fetchExternalData _fetchExternalData setExternalData
  rcases h : s.externalFetchPromise with _ | r
  · rcases ho : oracle.external ep with e | dt <;> simp [h, ho]
  · rcases r with e | d <;> simp [h]

/-- `_refreshExternalData` never touches the `_initialized` flag. -/
theorem _refreshExternalData_preserves_initialized (cfg : DiscoveryOptions)
    (oracle : Oracle) (now : Int) (s : DiscoveryState) :
    (_refreshExternalData cfg oracle now s).2.1.initialized =
      s.initialized := by
  unfold _refreshExternalData externalData
  rcases hc : s.externalCache with _ | _ | d <;>
    simp [jsOr, JsVal.truthy, hc, fetchExternalData_preserves_initialized]

/-- `refreshExternalData` never touches the `_initialized` flag. -/
theorem refreshExternalData_preserves_initialized (cfg : DiscoveryOptions)
    (oracle : Oracle) (now : Int) (s : DiscoveryState) :
    (refreshExternalData cfg oracle now s).2.1.initialized =
      s.initialized := by
  unfold refreshExternalData
  rcases h : s.externalRefreshPromise with _ | r
  · rcases hrr : (_refreshExternalData cfg oracle now s).2.2 with e | u <;>
      simp [h, hrr,
        _refreshExternalData_preserves_initialized cfg oracle now s]
  · rcases r with e | u <;> simp [h]

/-- `externalDataExpired` is a pure query: the state is unchanged. -/
theorem externalDataExpired_preserves_state (cfg : DiscoveryOptions)
    (now : Int) (s : DiscoveryState) :
    (externalDataExpired cfg now s).2.1 = s := by
  unfold externalDataExpired externalData
  rcases hc : s.externalCache with _ | _ | d
  · simp [jsOr, JsVal.truthy, hc]
  · simp [jsOr, JsVal.truthy, hc]
  · rcases ht : d.expireTime with _ | t <;> simp [jsOr, JsVal.truthy, hc, ht]

/-- `_init` sets `_initialized` to true exactly on its success paths and
leaves it untouched when the bootstrap fails. -/
theorem _init_initialized (cfg : DiscoveryOptions) (oracle : Oracle)
    (s : DiscoveryState) :
    ((_init cfg oracle s).2.2 = Except.ok Unit.unit →
      (_init cfg oracle s).2.1.initialized = true)
    ∧ ((_init cfg oracle s).2.2 ≠ Except.ok Unit.unit →
      (_init cfg oracle s).2.1.initialized = s.initialized) := by
  unfold _init initialData
  rcases hc : s.initialCache with _ | _ | d
  · rcases hf : (fetchInitialData cfg oracle s).2.2 with e | d0 <;>
      simp [jsOr, JsVal.truthy, hc, hf,
        fetchInitialData_preserves_initialized]
  · rcases hf : (fetchInitialData cfg oracle s).2.2 with e | d0 <;>
      simp [jsOr, JsVal.truthy, hc, hf,
        fetchInitialData_preserves_initialized]
  · simp [jsOr, JsVal.truthy, hc]

/-- `init` keeps a true flag true, sets it on a fresh successful
bootstrap, and leaves it unchanged when it does not succeed. -/
theorem init_initialized (cfg : DiscoveryOptions) (oracle : Oracle)
    (s : DiscoveryState) :
    (s.initialized = true → (init cfg oracle s).2.1.initialized = true)
    ∧ (s.initialPromise = none →
        (init cfg oracle s).2.2 = Except.ok Unit.unit →
        (init cfg oracle s).2.1.initialized = true)
    ∧ ((init cfg oracle s).2.2 ≠ Except.ok Unit.unit →
        (init cfg oracle s).2.1.initialized = s.initialized) := by
  unfold init
  by_cases hid : cfg.clientId = ""
  · simp [hid]
  · rcases hp : s.initialPromise with _ | r
    · rcases hi : (_init cfg oracle s).2.2 with e | u
      · have h2 := (_init_initialized cfg oracle s).2
        simp [hid, hp, hi] at h2 ⊢
        exact ⟨fun hs => by rw [h2, hs], h2⟩
      · have h1 := (_init_initialized cfg oracle s).1
        simp [hid, hp, hi] at h1 ⊢
        exact ⟨fun _ => h1, h1⟩
    · rcases r with e | u <;> simp [hid, hp]

/-- C9: the `_initialized` flag is false at construction; every public
operation keeps a true flag true; every operation other than `init`
leaves the flag exactly unchanged; a fresh `init` that resolves sets it
to true; an `init` that does not resolve leaves it unchanged.  Together:
the flag transitions false→true exactly on the first successful
bootstrap and is never reset by later operations or failures. -/
theorem initialized_monotone (cfg : DiscoveryOptions) (oracle : Oracle)
    (now : Int) :
    (∀ ic ec, (mkState ic ec).initialized = false)
    ∧ (∀ (op : Op) (s : DiscoveryState), s.initialized = true →
        (runOpState cfg oracle now op s).initialized = true)
    ∧ (∀ (op : Op) (s : DiscoveryState), op ≠ Op.opInit →
        (runOpState cfg oracle now op s).initialized = s.initialized)
    ∧ (∀ s : DiscoveryState, s.initialPromise = none →
        (init cfg oracle s).2.2 = Except.ok Unit.unit →
        (init cfg oracle s).2.1.initialized = true)
    ∧ (∀ s : DiscoveryState,
        (init cfg oracle s).2.2 ≠ Except.ok Unit.unit →
        (init cfg oracle s).2.1.initialized = s.initialized) := by
  refine ⟨fun ic ec => rfl, ?_, ?_,
    fun s => (init_initialized cfg oracle s).2.1,
    fun s => (init_initialized cfg oracle s).2.2⟩
  · intro op s hs
    cases op with
    | opInit => exact (init_initialized cfg oracle s).1 hs
    | opFetchInitialData =>
        rw [runOpState, fetchInitialData_preserves_initialized]; exact hs
    | opFetchExternalData ep =>
        rw [runOpState, fetchExternalData_preserves_initialized]; exact hs
    | opRefreshExternalData =>
        rw [runOpState, refreshExternalData_preserves_initialized]
        exact hs
    | opInitialData => exact hs
    | opExternalData => exact hs
    | opExternalDataExpired =>
        rw [runOpState, externalDataExpired_preserves_state]; exact hs
    | opRemoveInitialData => exact hs
    | opRemoveExternalData => exact hs
  · intro op s hop
    cases op with
    | opInit => exact absurd rfl hop
    | opFetchInitialData =>
        rw [runOpState, fetchInitialData_preserves_initialized]
    | opFetchExternalData ep =>
        rw [runOpState, fetchExternalData_preserves_initialized]
    | opRefreshExternalData =>
        rw [runOpState, refreshExternalData_preserves_initialized]
    | opInitialData => rfl
    | opExternalData => rfl
    | opExternalDataExpired =>
        rw [runOpState, externalDataExpired_preserves_state]
    | opRemoveInitialData => rfl
    | opRemoveExternalData => rfl

/-- Witness for C9: the flag survives a failing refresh (the refresh of
a coordinator with an empty cache and a failing transport rejects, yet
the flag stays true), and is false at construction. -/
theorem initialized_monotone_witness :
    ({ mkState JsVal.undef JsVal.undef with initialized := true } :
        DiscoveryState).initialized = true
    ∧ (runOpState sampleOptions failingOracle 0 Op.opRefreshExternalData
        { mkState JsVal.undef JsVal.undef with
          initialized := true }).initialized = true
    ∧ (mkState JsVal.undef JsVal.undef).initialized = false :=
  ⟨rfl,
    (initialized_monotone sampleOptions failingOracle 0).2.1
      Op.opRefreshExternalData
      { mkState JsVal.undef JsVal.undef with initialized := true } rfl,
    (initialized_monotone sampleOptions failingOracle 0).1
      JsVal.undef JsVal.undef⟩

end Discovery
